import Mathlib

/-!
# Verification of the OpenFaaS Classic Watchdog

A shallow embedding of the watchdog's configuration loader, startup
sequence and shutdown coordinator, together with theorems checking the
natural-language specification against the code.

Durations are modelled as `Int` nanoseconds, mirroring Go's
`time.Duration` (an `int64` count of nanoseconds).
-/

/-- One second in nanoseconds (`time.Second`). -/
def goSecond : Int := 1000000000

/-! ## Go standard library: `strconv.Atoi`

`strconv.Atoi` parses an optional sign followed by one or more decimal
digits, failing on anything else and on values outside the `int64`
range.  We return `none` on every error. -/

/-- Value of a non-empty run of decimal digits; `none` if any character
is not a digit.  The accumulator carries digits already consumed. -/
def digitsValAux (acc : Nat) : List Char → Option Nat
  | [] => some acc
  | c :: rest =>
    if c.isDigit then digitsValAux (acc * 10 + (c.toNat - '0'.toNat)) rest
    else none

/-- Go `strconv.Atoi`: optional `+`/`-` sign, then at least one decimal
digit, value within the `int64` range.  `none` models a non-nil error. -/
def goAtoi (s : String) : Option Int :=
  let cs := s.data
  let signed : Bool × List Char :=
    match cs with
    | '-' :: rest => (true, rest)
    | '+' :: rest => (false, rest)
    | _ => (false, cs)
  match signed with
  | (neg, ds) =>
    if ds.isEmpty then none
    else
      match digitsValAux 0 ds with
      | none => none
      | some n =>
        if neg then
          if (n : Int) ≤ 2 ^ 63 then some (-(n : Int)) else none
        else
          if n ≤ 2 ^ 63 - 1 then some (n : Int) else none

/-! ## Go standard library: `time.ParseDuration`

The grammar is `[-+]?([0-9]*(\.[0-9]*)?[a-z]+)+` with the special case
`"0"`.  The fractional contribution, which Go computes through
`float64`, is modelled with exact integer arithmetic
(`f * unit / scale`, truncated). -/

/-- `time.leadingInt`: consume leading digits; error (`none`) on
overflow past `1<<63`. -/
def leadingIntAux (x : Nat) : List Char → Option (Nat × List Char)
  | [] => some (x, [])
  | c :: rest =>
    if c.isDigit then
      if x > 2 ^ 63 / 10 then none
      else
        let x' := x * 10 + (c.toNat - '0'.toNat)
        if x' > 2 ^ 63 then none
        else leadingIntAux x' rest
    else some (x, c :: rest)

/-- `time.leadingFraction`: consume digits after the decimal point,
tracking the value and the power-of-ten scale; on overflow further
digits are consumed but ignored. -/
def leadingFractionAux (x scale : Nat) (overflow : Bool) :
    List Char → Nat × Nat × List Char
  | [] => (x, scale, [])
  | c :: rest =>
    if c.isDigit then
      if overflow then leadingFractionAux x scale overflow rest
      else if x > (2 ^ 63 - 1) / 10 then leadingFractionAux x scale true rest
      else
        let y := x * 10 + (c.toNat - '0'.toNat)
        if y > 2 ^ 63 then leadingFractionAux x scale true rest
        else leadingFractionAux y (scale * 10) overflow rest
    else (x, scale, c :: rest)

/-- Go's `unitMap`: nanoseconds per duration unit. -/
def unitMap : List (String × Nat) :=
  [("ns", 1), ("us", 1000), ("µs", 1000), ("μs", 1000),
   ("ms", 1000000), ("s", 1000000000),
   ("m", 60000000000), ("h", 3600000000000)]

/-- Split off the unit name: the longest prefix containing neither a
digit nor a `.`. -/
def takeUnit : List Char → List Char × List Char
  | [] => ([], [])
  | c :: rest =>
    if c = '.' ∨ c.isDigit then ([], c :: rest)
    else
      let (u, r) := takeUnit rest
      (c :: u, r)

/-- The main loop of `time.ParseDuration`: repeatedly consume
`[0-9]*(\.[0-9]*)?unit` groups, accumulating nanoseconds in `d`.
`fuel` bounds the recursion; every successful iteration consumes at
least one character, so `s.length + 1` fuel always suffices. -/
def parseDurationLoop (fuel : Nat) (d : Nat) (s : List Char) : Option Nat :=
  match fuel with
  | 0 => none
  | fuel + 1 =>
    match s with
    | [] => some d
    | c :: _ =>
      if ¬(c = '.' ∨ c.isDigit) then none
      else
        match leadingIntAux 0 s with
        | none => none
        | some (v, s1) =>
          let pre := decide (s1.length ≠ s.length)
          let fracRes : Nat × Nat × List Char × Bool :=
            match s1 with
            | '.' :: s1' =>
              match leadingFractionAux 0 1 false s1' with
              | (f, sc, s2) => (f, sc, s2, decide (s2.length ≠ s1'.length))
            | _ => (0, 1, s1, false)
          match fracRes with
          | (f, scale, s2, post) =>
            if pre = false ∧ post = false then none
            else
              match takeUnit s2 with
              | (u, s3) =>
                if u.isEmpty then none
                else
                  match unitMap.lookup (String.mk u) with
                  | none => none
                  | some unit =>
                    if v > 2 ^ 63 / unit then none
                    else
                      let v1 := v * unit
                      let v2 := if f > 0 then v1 + f * unit / scale else v1
                      if f > 0 ∧ v2 > 2 ^ 63 then none
                      else
                        let d' := d + v2
                        if d' > 2 ^ 63 then none
                        else parseDurationLoop fuel d' s3

/-- Go `time.ParseDuration`: optional sign, special case `"0"`, then
the group loop; the magnitude must fit in `int64`.  `none` models a
non-nil error. -/
def goParseDuration (s : String) : Option Int :=
  let cs := s.data
  let signed : Bool × List Char :=
    match cs with
    | c :: rest =>
      if c = '-' then (true, rest)
      else if c = '+' then (false, rest)
      else (false, cs)
    | [] => (false, cs)
  match signed with
  | (neg, cs1) =>
    if cs1 = ['0'] then some 0
    else if cs1.isEmpty then none
    else
      match parseDurationLoop (cs1.length + 1) 0 cs1 with
      | none => none
      | some d =>
        if neg then some (-(d : Int))
        else if d > 2 ^ 63 - 1 then none
        else some (d : Int)

/-! ## `readconfig.go` -/

/-- `isBoolValueSet`: a boolean env var counts as set when non-empty. -/
def isBoolValueSet (val : String) : Bool :=
  val.length > 0

/-- `parseBoolValue`: only the literal `"true"` is true. -/
def parseBoolValue (val : String) : Bool :=
  if val = "true" then true else false

/-- `parseIntOrDurationValue`: try `strconv.Atoi` first (non-empty
input, non-negative result, interpreted as seconds), then
`time.ParseDuration`, then the fallback. -/
def parseIntOrDurationValue (val : String) (fallback : Int) : Int :=
  if 0 < val.length then
    match goAtoi val with
    | some parsedVal =>
      if 0 ≤ parsedVal then parsedVal * goSecond
      else
        match goParseDuration val with
        | some duration => duration
        | none => fallback
    | none =>
      match goParseDuration val with
      | some duration => duration
      | none => fallback
  else
    match goParseDuration val with
    | some duration => duration
    | none => fallback

/-- `parseIntValue`: `strconv.Atoi` with a non-negativity requirement,
otherwise the fallback. -/
def parseIntValue (val : String) (fallback : Int) : Int :=
  if 0 < val.length then
    match goAtoi val with
    | some parsedVal => if 0 ≤ parsedVal then parsedVal else fallback
    | none => fallback
  else fallback

/-- `WatchdogConfig` from `readconfig.go` (durations in nanoseconds). -/
structure WatchdogConfig where
  readTimeout : Int
  writeTimeout : Int
  healthcheckInterval : Int
  faasProcess : String
  execTimeout : Int
  writeDebug : Bool
  marshalRequest : Bool
  cgiHeaders : Bool
  debugHeaders : Bool
  suppressLock : Bool
  contentType : String
  port : Int
  combineOutput : Bool
  metricsPort : Int
  jwtAuthentication : Bool
  jwtAuthDebug : Bool
  jwtAuthLocal : Bool
  maxInflight : Int
  deriving DecidableEq

/-- `(ReadConfig) Read`: fetch the configuration from environment
variables.  `env` models `HasEnv.Getenv` (empty string for unset).
The Go code initialises `writeDebug := false`, `cgiHeaders := true`,
`combineOutput := true` and overwrites each only when the variable is
set; that mutation sequence is rendered as a conditional here. -/
def Read (env : String → String) : WatchdogConfig :=
  let defaultTimeout : Int := 30 * goSecond
  let writeTimeoutV := parseIntOrDurationValue (env "write_timeout") defaultTimeout
  { faasProcess := env "fprocess"
    readTimeout := parseIntOrDurationValue (env "read_timeout") defaultTimeout
    writeTimeout := writeTimeoutV
    healthcheckInterval :=
      parseIntOrDurationValue (env "healthcheck_interval") writeTimeoutV
    execTimeout := parseIntOrDurationValue (env "exec_timeout") 0
    port := parseIntValue (env "port") 8080
    writeDebug :=
      if isBoolValueSet (env "write_debug") then parseBoolValue (env "write_debug")
      else false
    cgiHeaders :=
      if isBoolValueSet (env "cgi_headers") then parseBoolValue (env "cgi_headers")
      else true
    marshalRequest := parseBoolValue (env "marshal_request")
    debugHeaders := parseBoolValue (env "debug_headers")
    suppressLock := parseBoolValue (env "suppress_lock")
    contentType := env "content_type"
    combineOutput :=
      if isBoolValueSet (env "combine_output") then parseBoolValue (env "combine_output")
      else true
    jwtAuthentication := parseBoolValue (env "jwt_auth")
    jwtAuthDebug := parseBoolValue (env "jwt_auth_debug")
    jwtAuthLocal := parseBoolValue (env "jwt_auth_local")
    metricsPort := 8081
    maxInflight := parseIntValue (env "max_inflight") 0 }

/-! ## `main.go`: world, auth adapter, startup trace -/

/-- The parts of the operating-system world that `main` consults.
`lookupEnv` models `os.LookupEnv` (`none` = unset); `lockFileExists`
models the presence of `<temp-dir>/.lock`; `readFile` models
`os.ReadFile` (`none` = error); `lockCreateSucceeds` models whether
`createLockFile`'s write succeeds; `jwtMiddlewareOk` models whether the
external `auth.NewJWTAuthMiddleware` constructor returns a nil error. -/
structure World where
  lookupEnv : String → Option String
  lockFileExists : Bool
  readFile : String → Option String
  lockCreateSucceeds : Bool
  jwtMiddlewareOk : Bool

/-- `os.Getenv`: the empty string when the variable is unset. -/
def getenv (w : World) (k : String) : String :=
  (w.lookupEnv k).getD ""

/-- Modelled from the spec: `lockFilePresent` is not among the provided
source files; §4.2 specifies the query operation as "tests existence —
returns true iff the file is present". -/
def lockFilePresent (w : World) : Bool :=
  w.lockFileExists

/-- Fixed fallback path for the function namespace. -/
def serviceAccountNamespacePath : String :=
  "/var/run/secrets/kubernetes.io/serviceaccount/namespace"

/-- `getFnName`: `OPENFAAS_NAME`, required non-empty. -/
def getFnName (lookupEnv : String → Option String) : Except String String :=
  match lookupEnv "OPENFAAS_NAME" with
  | some name =>
    if name.length = 0 then Except.error "env variable OPENFAAS_NAME not set"
    else Except.ok name
  | none => Except.error "env variable OPENFAAS_NAME not set"

/-- `getFnNamespace`: `OPENFAAS_NAMESPACE` when set, otherwise the
service-account namespace file. -/
def getFnNamespace (w : World) : Except String String :=
  match w.lookupEnv "OPENFAAS_NAMESPACE" with
  | some ns => Except.ok ns
  | none =>
    match w.readFile serviceAccountNamespacePath with
    | some nsVal => Except.ok nsVal
    | none => Except.error "read error"

/-- `Except` success as a `Bool`. -/
def exceptOk {ε α : Type} : Except ε α → Bool
  | Except.ok _ => true
  | Except.error _ => false

/-- `makeJWTAuthHandler`: resolve namespace, then name, then construct
the external middleware; any failure propagates as an error. -/
def makeJWTAuthHandler (w : World) : Except String Unit :=
  match getFnNamespace w with
  | Except.error e => Except.error e
  | Except.ok _ =>
    match getFnName w.lookupEnv with
    | Except.error e => Except.error e
    | Except.ok _ =>
      if w.jwtMiddlewareOk then Except.ok () else Except.error "middleware error"

/-- Whether `makeJWTAuthHandler` returns without error. -/
def jwtHandlerOk (w : World) : Bool :=
  exceptOk (makeJWTAuthHandler w)

/-- Observable actions of `main` and `listenUntilShutdown`, in program
order. -/
inductive MainAction where
  | checkLockFile
  | exitZero
  | writeHealthDiagnostic
  | exitOne
  | printVersionAction
  | storeNotReady
  | readConfigAction
  | panicEmptyProcess
  | createHTTPServer
  | logTimeouts
  | makeHandler
  | fatalJWTError
  | registerHealthHandler
  | registerFunctionHandler
  | registerMetricsServer
  | serveMetrics
  | createLockFileAction
  | panicLockFileError
  | logSuppressLockWarning
  | setReady
  | awaitShutdown
  deriving DecidableEq

/-- The lock-file branch of `listenUntilShutdown` (lines 161-173):
without suppress-lock, create the lock file (which, per §4.2, flips
ready-state to ready on success) or panic on write error; with
suppress-lock, log a warning and store 1 into `acceptingConnections`.
Either way the function then blocks on `idleConnsClosed`. -/
def listenUntilShutdownTrace (suppressLock : Bool) (w : World) : List MainAction :=
  if suppressLock = false then
    if w.lockCreateSucceeds then
      [MainAction.createLockFileAction, MainAction.setReady, MainAction.awaitShutdown]
    else [MainAction.createLockFileAction, MainAction.panicLockFileError]
  else [MainAction.logSuppressLockWarning, MainAction.setReady, MainAction.awaitShutdown]

/-- `main` after the config has been read: empty-process check, server
construction, handler construction, optional JWT wrapping,
registrations, and `listenUntilShutdown`. -/
def mainServeTrace (cfg : WatchdogConfig) (w : World) : List MainAction :=
  if cfg.faasProcess.length = 0 then [MainAction.panicEmptyProcess]
  else
    [MainAction.createHTTPServer, MainAction.logTimeouts, MainAction.makeHandler] ++
      (if cfg.jwtAuthentication = true ∧ jwtHandlerOk w = false then
        [MainAction.fatalJWTError]
      else
        [MainAction.registerHealthHandler, MainAction.registerFunctionHandler,
         MainAction.registerMetricsServer, MainAction.serveMetrics] ++
          listenUntilShutdownTrace cfg.suppressLock w)

/-- The action trace of `main` (lines 32-111): the `--run-healthcheck`
short-circuit, the `--version` exit, then config read and serving. -/
def mainTrace (runHealthcheck versionFlag : Bool) (w : World) : List MainAction :=
  if runHealthcheck = true then
    if lockFilePresent w = true then [MainAction.checkLockFile, MainAction.exitZero]
    else [MainAction.checkLockFile, MainAction.writeHealthDiagnostic, MainAction.exitOne]
  else if versionFlag = true then [MainAction.printVersionAction, MainAction.exitZero]
  else
    [MainAction.printVersionAction, MainAction.storeNotReady, MainAction.readConfigAction] ++
      mainServeTrace (Read (getenv w)) w

/-- A trace aborts fatally when it panics on an empty process, exits
via `log.Fatalf` on a JWT middleware error, or panics on a lock-file
write error. -/
def isFatalTrace (t : List MainAction) : Prop :=
  MainAction.panicEmptyProcess ∈ t ∨ MainAction.fatalJWTError ∈ t ∨
    MainAction.panicLockFileError ∈ t

instance (t : List MainAction) : Decidable (isFatalTrace t) := by
  unfold isFatalTrace; infer_instance

/-! ## `main.go`: shutdown coordinator -/

/-- Observable events of the SIGTERM goroutine in `listenUntilShutdown`
and of the server-exit goroutine. -/
inductive ShutdownEvent where
  | setNotReady
  | removeLockAttempt
  | sleep (d : Int)
  | readGauge (n : Int)
  | logDraining (n : Int)
  | serverShutdown (timeout : Int)
  | logExiting (n : Int)
  | closeIdleConns
  | logServeError
  deriving DecidableEq

/-- `markUnhealthy` (lines 176-183): store 0 into
`acceptingConnections`, then unconditionally attempt to remove
`<temp-dir>/.lock`. -/
def markUnhealthyEvents : List ShutdownEvent :=
  [ShutdownEvent.setNotReady, ShutdownEvent.removeLockAttempt]

/-- The SIGTERM goroutine (lines 120-151), as the event sequence it
performs once the signal arrives: `markUnhealthy`, a one-interval
`time.Tick` wait, a read and log of the in-flight gauge (`g1`), a
graceful `Shutdown` bounded by the write timeout, a second gauge read
(`g2`) logged at exit, and the close of `idleConnsClosed` that
unblocks `listenUntilShutdown` and lets the process exit. -/
def sigtermTrace (healthcheckInterval writeTimeout g1 g2 : Int) :
    List ShutdownEvent :=
  markUnhealthyEvents ++
    [ShutdownEvent.sleep healthcheckInterval,
     ShutdownEvent.readGauge g1, ShutdownEvent.logDraining g1,
     ShutdownEvent.serverShutdown writeTimeout,
     ShutdownEvent.readGauge g2, ShutdownEvent.logExiting g2,
     ShutdownEvent.closeIdleConns]

/-- The server-exit goroutine (lines 154-159): when `ListenAndServe`
returns an error other than `http.ErrServerClosed`, it logs the error
and closes `idleConnsClosed`. -/
def serverExitTrace (errIsServerClosed : Bool) : List ShutdownEvent :=
  if errIsServerClosed then []
  else [ShutdownEvent.logServeError, ShutdownEvent.closeIdleConns]

/-- Number of `close(idleConnsClosed)` calls in an event sequence. -/
def countCloses (t : List ShutdownEvent) : Nat :=
  t.count ShutdownEvent.closeIdleConns

/-- Go channel semantics for `close`: executing the events over a
channel-closed flag; closing an already-closed channel panics
(`none`). -/
def runCloses (t : List ShutdownEvent) (closed : Bool) : Option Bool :=
  match t with
  | [] => some closed
  | e :: rest =>
    match e with
    | ShutdownEvent.closeIdleConns =>
      if closed then none else runCloses rest true
    | _ => runCloses rest closed

/-! ## Invocation pipeline outcome (spec-modelled)

Modelled from the spec: the request handler / invocation pipeline
(`makeRequestHandler` and its helpers) is not among the provided
source files.  §4.6 "Completion" and §7 give the response status for
each terminal outcome of an invocation: spawn failure is 500, hard
timeout is 502 with a timeout body, non-zero exit is 500 with
combine-output disabled and 200 with it enabled, success is 200. -/
inductive InvocationOutcome where
  | startFailed
  | hardTimeout
  | exitNonZero
  | exitZero
  deriving DecidableEq

/-- Modelled from the spec: response status per invocation outcome
(§4.6 "Completion", §7). -/
def responseStatus (combineOutput : Bool) : InvocationOutcome → Nat
  | InvocationOutcome.startFailed => 500
  | InvocationOutcome.hardTimeout => 502
  | InvocationOutcome.exitNonZero => if combineOutput then 200 else 500
  | InvocationOutcome.exitZero => 200

/-! ## Concrete example environments and worlds -/

/-- An environment with every variable unset (`Getenv` yields `""`). -/
def emptyEnv : String → String := fun _ => ""

/-- A world with a non-empty `fprocess` and JWT auth enabled, but with
`OPENFAAS_NAME` unset and no service-account namespace file. -/
def jwtFailWorld : World where
  lookupEnv := fun k =>
    if k = "fprocess" then some "cat"
    else if k = "jwt_auth" then some "true"
    else none
  lockFileExists := false
  readFile := fun _ => none
  lockCreateSucceeds := true
  jwtMiddlewareOk := true

/-- A world with a non-empty `fprocess` and `suppress_lock=true`. -/
def suppressWorld : World where
  lookupEnv := fun k =>
    if k = "fprocess" then some "cat"
    else if k = "suppress_lock" then some "true"
    else none
  lockFileExists := false
  readFile := fun _ => none
  lockCreateSucceeds := true
  jwtMiddlewareOk := true

/-- A world in which the lock file is present. -/
def lockWorld : World where
  lookupEnv := fun _ => none
  lockFileExists := true
  readFile := fun _ => none
  lockCreateSucceeds := true
  jwtMiddlewareOk := true

/-- `v` does not parse as a non-negative integer (`strconv.Atoi` fails
or yields a negative value); holds vacuously for `""`. -/
def noParseNonNegInt (v : String) : Prop :=
  ∀ n : Int, goAtoi v = some n → n < 0

/-- `v` parses neither as a non-negative integer nor as a duration;
holds for `""` and for unparseable strings. -/
def noParseDuration (v : String) : Prop :=
  noParseNonNegInt v ∧ goParseDuration v = none

/-! ## Helper lemmas -/

/-- A successful `goAtoi` needs at least one character. -/
theorem goAtoi_length_pos {v : String} {n : Int} (h : goAtoi v = some n) :
    0 < v.length := by
  cases v with
  | mk data =>
    cases data with
    | nil =>
      rw [show goAtoi (String.mk []) = none from rfl] at h
      cases h
    | cons c cs => simp [String.length]

/-- When neither parse succeeds, `parseIntOrDurationValue` yields the
fallback. -/
theorem parseIntOrDuration_fallback {v : String} (d : Int)
    (h1 : noParseNonNegInt v) (h2 : goParseDuration v = none) :
    parseIntOrDurationValue v d = d := by
  unfold parseIntOrDurationValue
  split
  · cases hA : goAtoi v with
    | none => simp [h2]
    | some n =>
      have hn := h1 n hA
      simp [h2, if_neg (not_le.mpr hn)]
  · simp [h2]

/-- When `goAtoi` does not yield a non-negative value, `parseIntValue`
yields the fallback. -/
theorem parseIntValue_fallback {v : String} (d : Int)
    (h1 : noParseNonNegInt v) : parseIntValue v d = d := by
  unfold parseIntValue
  split
  · cases hA : goAtoi v with
    | none => simp
    | some n =>
      have hn := h1 n hA
      simp [if_neg (not_le.mpr hn)]
  · rfl

/-- `""` parses neither way. -/
theorem noParseDuration_empty : noParseDuration "" := by
  constructor
  · intro n h
    rw [show goAtoi "" = none from rfl] at h
    cases h
  · rfl

/-- A string of length zero is the empty string. -/
theorem string_length_zero_iff (s : String) : s.length = 0 ↔ s = "" := by
  cases s with
  | mk data =>
    cases data with
    | nil => simp [String.length]
    | cons c cs =>
      simp only [String.length, List.length_cons]
      constructor
      · intro h; omega
      · intro h
        have : (String.mk (c :: cs)).data = ("" : String).data := by rw [h]
        simp at this

/-- Executing any event list with at least one channel close over an
already-closed channel panics. -/
theorem runCloses_closed_of_one (t : List ShutdownEvent)
    (h : 1 ≤ countCloses t) : runCloses t true = none := by
  induction t with
  | nil => simp [countCloses] at h
  | cons e rest ih =>
    cases e <;> simp_all [countCloses, runCloses, List.count_cons]

/-- Executing any event list with at least two channel closes over a
fresh channel panics. -/
theorem runCloses_open_of_two (t : List ShutdownEvent)
    (h : 2 ≤ countCloses t) : runCloses t false = none := by
  induction t with
  | nil => simp [countCloses] at h
  | cons e rest ih =>
    by_cases he : e = ShutdownEvent.closeIdleConns
    · subst he
      have hr : 1 ≤ countCloses rest := by
        have hc : countCloses (ShutdownEvent.closeIdleConns :: rest) =
            countCloses rest + 1 := by
          simp [countCloses, List.count_cons]
        omega
      simp only [runCloses, if_neg (by simp : ¬False)]
      simpa [runCloses] using runCloses_closed_of_one rest hr
    · have hr : 2 ≤ countCloses rest := by
        simpa [countCloses, List.count_cons, he] using h
      cases e <;> first
        | exact absurd rfl he
        | simpa [runCloses] using ih hr

/-! ## Claim theorems -/

/-- Claim C1, counterexample: the claimed invariant "status is 500 iff
the invocation failed to start, timed out hard, or the child exited
non-zero with combine-output disabled" fails at the hard-timeout
outcome, where the response status is 502, not 500. -/
theorem claimC1_counterexample :
    ¬(responseStatus true InvocationOutcome.hardTimeout = 500 ↔
      (InvocationOutcome.hardTimeout = InvocationOutcome.startFailed ∨
       InvocationOutcome.hardTimeout = InvocationOutcome.hardTimeout ∨
       (InvocationOutcome.hardTimeout = InvocationOutcome.exitNonZero ∧
         true = false))) := by
  decide

/-- Claim C1, amended: the response status is 500 iff the invocation
failed to start or the child exited non-zero with combine-output
disabled; a hard timeout instead produces status 502 (with a timeout
body), as §4.6 states. -/
theorem claimC1_amended (combineOutput : Bool) (o : InvocationOutcome) :
    (responseStatus combineOutput o = 500 ↔
      (o = InvocationOutcome.startFailed ∨
       (o = InvocationOutcome.exitNonZero ∧ combineOutput = false))) ∧
    responseStatus combineOutput InvocationOutcome.hardTimeout = 502 := by
  cases combineOutput <;> cases o <;> decide

/-- Claim C2, counterexample: even in a configuration with
`suppress_lock=true`, the SIGTERM shutdown sequence (whose first step
is `markUnhealthy`) contains a lock-file removal attempt —
`markUnhealthy` removes the file unconditionally. -/
theorem claimC2_counterexample :
    (Read (getenv suppressWorld)).suppressLock = true ∧
    ShutdownEvent.removeLockAttempt ∈ sigtermTrace 30 30 0 0 := by
  constructor
  · decide
  · decide

/-- Claim C2, amended: when suppress-lock is set at startup the
ready-state flag is set to ready without creating any lock file, but
the SIGTERM shutdown step (1) still performs both the flag flip to
not-ready and an unconditional lock-file removal attempt (which fails
and is merely logged, since no lock file exists). -/
theorem claimC2_amended (suppressLock : Bool) (w : World)
    (h wt g1 g2 : Int) :
    (suppressLock = true →
      listenUntilShutdownTrace suppressLock w =
        [MainAction.logSuppressLockWarning, MainAction.setReady,
         MainAction.awaitShutdown] ∧
      MainAction.createLockFileAction ∉
        listenUntilShutdownTrace suppressLock w) ∧
    ShutdownEvent.setNotReady ∈ sigtermTrace h wt g1 g2 ∧
    ShutdownEvent.removeLockAttempt ∈ sigtermTrace h wt g1 g2 := by
  refine ⟨?_, ?_, ?_⟩
  · intro hs
    subst hs
    refine ⟨by simp [listenUntilShutdownTrace], ?_⟩
    simp [listenUntilShutdownTrace]
  · simp [sigtermTrace, markUnhealthyEvents]
  · simp [sigtermTrace, markUnhealthyEvents]

/-- Witness for the amended claim C2 at a concrete world. -/
theorem claimC2_amended_witness :
    listenUntilShutdownTrace true suppressWorld =
      [MainAction.logSuppressLockWarning, MainAction.setReady,
       MainAction.awaitShutdown] ∧
    MainAction.createLockFileAction ∉
      listenUntilShutdownTrace true suppressWorld ∧
    ShutdownEvent.removeLockAttempt ∈ sigtermTrace 30 30 0 0 := by
  obtain ⟨h1, _, h3⟩ := claimC2_amended true suppressWorld 30 30 0 0
  exact ⟨(h1 rfl).1, (h1 rfl).2, h3⟩

/-- Claim C3: on SIGTERM the shutdown coordinator (1) sets ready-state
to not-ready and removes the lock file, (2) sleeps for exactly one
healthcheck-interval, (3) reads and logs the in-flight gauge, (4)
calls the HTTP server's graceful shutdown with a timeout equal to the
write timeout, and (5) logs the final in-flight count and exits
(closing `idleConnsClosed`, which unblocks `listenUntilShutdown`), in
this order. -/
theorem claimC3_shutdown_order (healthcheckInterval writeTimeout g1 g2 : Int) :
    sigtermTrace healthcheckInterval writeTimeout g1 g2 =
      [ShutdownEvent.setNotReady, ShutdownEvent.removeLockAttempt,
       ShutdownEvent.sleep healthcheckInterval,
       ShutdownEvent.readGauge g1, ShutdownEvent.logDraining g1,
       ShutdownEvent.serverShutdown writeTimeout,
       ShutdownEvent.readGauge g2, ShutdownEvent.logExiting g2,
       ShutdownEvent.closeIdleConns] := rfl

/-- Claim C5: `idleConnsClosed` is closed once by the SIGTERM shutdown
goroutine and once by the server-exit goroutine's error branch; in any
execution (any interleaving) in which both branches run, close is
invoked twice on the same channel, and the second close panics. -/
theorem claimC5_double_close (h wt g1 g2 : Int) (t : List ShutdownEvent) :
    countCloses (sigtermTrace h wt g1 g2) = 1 ∧
    countCloses (serverExitTrace false) = 1 ∧
    (t.Perm (sigtermTrace h wt g1 g2 ++ serverExitTrace false) →
      countCloses t = 2 ∧ runCloses t false = none) := by
  have hs : countCloses (sigtermTrace h wt g1 g2) = 1 := by
    simp [countCloses, sigtermTrace, markUnhealthyEvents, List.count_cons]
  have he : countCloses (serverExitTrace false) = 1 := by
    simp [countCloses, serverExitTrace, List.count_cons]
  refine ⟨hs, he, ?_⟩
  intro hperm
  have hcount : countCloses t = 2 := by
    have := hperm.count_eq ShutdownEvent.closeIdleConns
    unfold countCloses
    rw [this, List.count_append]
    have hs' := hs
    have he' := he
    unfold countCloses at hs' he'
    omega
  exact ⟨hcount, runCloses_open_of_two t (by omega)⟩

/-- Witness for claim C5 at concrete values, with the interleaving
that runs the SIGTERM branch to completion first. -/
theorem claimC5_witness :
    countCloses (sigtermTrace 1 2 3 4) = 1 ∧
    runCloses (sigtermTrace 1 2 3 4 ++ serverExitTrace false) false = none := by
  obtain ⟨h1, _, h3⟩ :=
    claimC5_double_close 1 2 3 4 (sigtermTrace 1 2 3 4 ++ serverExitTrace false)
  exact ⟨h1, (h3 (List.Perm.refl _)).2⟩

/-- Claim C10: the metrics port is not configurable — `Read` returns
8081 for every environment. -/
theorem claimC10_metrics_port_fixed (env : String → String) :
    (Read env).metricsPort = 8081 := rfl

/-- Claim C7: with `--run-healthcheck`, `main` exits 0 when the lock
file is present and exits 1 after a stderr diagnostic otherwise, and
this short-circuit branch performs no config read, no server or
listener creation, and no handler registration. -/
theorem claimC7_healthcheck (w : World) (versionFlag : Bool) :
    (lockFilePresent w = true →
      mainTrace true versionFlag w =
        [MainAction.checkLockFile, MainAction.exitZero]) ∧
    (lockFilePresent w = false →
      mainTrace true versionFlag w =
        [MainAction.checkLockFile, MainAction.writeHealthDiagnostic,
         MainAction.exitOne]) ∧
    MainAction.readConfigAction ∉ mainTrace true versionFlag w ∧
    MainAction.createHTTPServer ∉ mainTrace true versionFlag w ∧
    MainAction.registerHealthHandler ∉ mainTrace true versionFlag w ∧
    MainAction.registerFunctionHandler ∉ mainTrace true versionFlag w ∧
    MainAction.registerMetricsServer ∉ mainTrace true versionFlag w ∧
    MainAction.serveMetrics ∉ mainTrace true versionFlag w := by
  cases hw : w.lockFileExists <;>
    simp [mainTrace, lockFilePresent, hw]

/-- Witness for claim C7: in a world where the lock file exists, the
healthcheck invocation checks the file and exits 0. -/
theorem claimC7_witness :
    mainTrace true false lockWorld =
      [MainAction.checkLockFile, MainAction.exitZero] :=
  (claimC7_healthcheck lockWorld false).1 rfl

/-- Claim C4, counterexample: an environment with a non-empty
`fprocess` (here `cat`) in which startup still aborts fatally — JWT
auth is enabled but `OPENFAAS_NAME` is unset and the service-account
namespace file is unreadable, so `main` hits `log.Fatalf`. -/
theorem claimC4_counterexample :
    (getenv jwtFailWorld "fprocess").length ≠ 0 ∧
    isFatalTrace (mainTrace false false jwtFailWorld) := by
  constructor
  · decide
  · decide

/-- Claim C4, amended: startup aborts fatally exactly when the target
command is empty, or JWT auth is enabled and the JWT handler cannot be
constructed (name/namespace resolution or middleware failure), or
suppress-lock is disabled and the lock file cannot be written. -/
theorem claimC4_amended (w : World) :
    isFatalTrace (mainTrace false false w) ↔
      ((Read (getenv w)).faasProcess.length = 0 ∨
       ((Read (getenv w)).jwtAuthentication = true ∧ jwtHandlerOk w = false) ∨
       ((Read (getenv w)).suppressLock = false ∧
         w.lockCreateSucceeds = false)) := by
  have hmt : mainTrace false false w =
      [MainAction.printVersionAction, MainAction.storeNotReady,
       MainAction.readConfigAction] ++ mainServeTrace (Read (getenv w)) w := rfl
  rw [hmt]
  unfold isFatalTrace mainServeTrace listenUntilShutdownTrace
  by_cases h1 : (Read (getenv w)).faasProcess.length = 0
  · simp [h1]
  · by_cases h2 : (Read (getenv w)).jwtAuthentication = true ∧
        jwtHandlerOk w = false
    · simp [h1, h2]
    · by_cases h3 : (Read (getenv w)).suppressLock = false
      · cases hl : w.lockCreateSucceeds <;> simp [h1, h2, h3, hl]
      · simp [h1, h2, h3]

/-- Claim C8: with JWT auth enabled, the function name comes from
`OPENFAAS_NAME` and fails exactly when that variable is unset or
empty; the namespace comes from `OPENFAAS_NAMESPACE` when set,
otherwise from the service-account file
`/var/run/secrets/kubernetes.io/serviceaccount/namespace`; and a
resolution failure of either value makes startup fatal. -/
theorem claimC8_jwt_resolution (w : World) :
    (exceptOk (getFnName w.lookupEnv) = false ↔
      (w.lookupEnv "OPENFAAS_NAME" = none ∨
       w.lookupEnv "OPENFAAS_NAME" = some "")) ∧
    (∀ ns, w.lookupEnv "OPENFAAS_NAMESPACE" = some ns →
      getFnNamespace w = Except.ok ns) ∧
    (w.lookupEnv "OPENFAAS_NAMESPACE" = none →
      (∀ v, w.readFile serviceAccountNamespacePath = some v →
        getFnNamespace w = Except.ok v) ∧
      (w.readFile serviceAccountNamespacePath = none →
        exceptOk (getFnNamespace w) = false)) ∧
    ((Read (getenv w)).jwtAuthentication = true →
      (exceptOk (getFnName w.lookupEnv) = false ∨
       exceptOk (getFnNamespace w) = false) →
      isFatalTrace (mainTrace false false w)) := by
  refine ⟨?_, ?_, ?_, ?_⟩
  · unfold getFnName
    cases hn : w.lookupEnv "OPENFAAS_NAME" with
    | none => simp [exceptOk]
    | some name =>
      by_cases hz : name.length = 0
      · simp [hz, exceptOk, (string_length_zero_iff name).mp hz]
      · have : name ≠ "" := fun he =>
          hz ((string_length_zero_iff name).mpr he)
        simp [hz, exceptOk, this]
  · intro ns hns
    unfold getFnNamespace
    rw [hns]
  · intro hunset
    unfold getFnNamespace
    rw [hunset]
    constructor
    · intro v hv
      rw [hv]
    · intro hnone
      rw [hnone]
      rfl
  · intro hjwt hfail
    have hmt : mainTrace false false w =
        [MainAction.printVersionAction, MainAction.storeNotReady,
         MainAction.readConfigAction] ++
          mainServeTrace (Read (getenv w)) w := rfl
    have hok : jwtHandlerOk w = false := by
      unfold jwtHandlerOk makeJWTAuthHandler
      rcases hfail with hf | hf
      · unfold getFnName at hf ⊢
        cases hn : w.lookupEnv "OPENFAAS_NAME" with
        | none =>
          cases hns : getFnNamespace w with
          | error e => rfl
          | ok a => simp [exceptOk]
        | some name =>
          rw [hn] at hf
          by_cases hz : name.length = 0
          · cases hns : getFnNamespace w with
            | error e => rfl
            | ok a => simp [hz, exceptOk]
          · simp [hz, exceptOk] at hf
      · cases hns : getFnNamespace w with
        | error e => rfl
        | ok a =>
          rw [hns] at hf
          simp [exceptOk] at hf
    rw [hmt]
    unfold isFatalTrace mainServeTrace
    by_cases h1 : (Read (getenv w)).faasProcess.length = 0
    · simp [h1]
    · simp [h1, hjwt, hok]

/-- Witness for claim C8: in `jwtFailWorld` (JWT auth on, name and
namespace both unresolvable) startup is fatal. -/
theorem claimC8_witness :
    isFatalTrace (mainTrace false false jwtFailWorld) :=
  (claimC8_jwt_resolution jwtFailWorld).2.2.2 (by decide) (Or.inl (by decide))

/-- Claim C6: duration parsing returns `n` seconds when `v` is
non-empty and parses as a non-negative integer `n`; the parsed
duration when `v` instead parses as a human-readable duration string;
and the fallback `d` when `v` is empty or parses neither way.  In
particular `"30"` gives 30s, `"500ms"` gives 500ms, `""` gives `d`,
and `"garbage"` gives `d`. -/
theorem claimC6_duration_parsing (v : String) (d : Int) :
    (∀ n : Int, 0 ≤ n → goAtoi v = some n →
      parseIntOrDurationValue v d = n * goSecond) ∧
    ((∀ n : Int, goAtoi v = some n → n < 0) →
      (∀ dur : Int, goParseDuration v = some dur →
        parseIntOrDurationValue v d = dur) ∧
      (goParseDuration v = none → parseIntOrDurationValue v d = d)) ∧
    parseIntOrDurationValue "30" d = 30 * goSecond ∧
    parseIntOrDurationValue "500ms" d = 500 * 1000000 ∧
    parseIntOrDurationValue "" d = d ∧
    parseIntOrDurationValue "garbage" d = d := by
  refine ⟨?_, ?_, rfl, rfl, rfl, rfl⟩
  · intro n hn hA
    have hv : 0 < v.length := goAtoi_length_pos hA
    unfold parseIntOrDurationValue
    rw [if_pos hv, hA]
    simp [hn]
  · intro hneg
    constructor
    · intro dur hdur
      unfold parseIntOrDurationValue
      split
      · cases hA : goAtoi v with
        | none => simp [hdur]
        | some n =>
          have := hneg n hA
          simp [hdur, if_neg (not_le.mpr this)]
      · simp [hdur]
    · intro hnone
      exact parseIntOrDuration_fallback d hneg hnone

/-- Witness for claim C6: `"30"` with fallback 7 parses through the
integer branch to 30 seconds. -/
theorem claimC6_witness :
    parseIntOrDurationValue "30" 7 = 30 * goSecond :=
  (claimC6_duration_parsing "30" 7).1 30 (by decide) (by decide)

/-- Claim C9: for every environment, each config field whose variable
is unset (empty) or unparseable gets its documented default: read and
write timeouts 30s, hard execution timeout 0, healthcheck interval
equal to the (possibly parsed) write timeout, port 8080, metrics port
8081, write-debug false, cgi-headers true, marshal-request false,
debug-headers false, suppress-lock false, combine-output true,
max-in-flight 0. -/
theorem claimC9_defaults (env : String → String) :
    (noParseDuration (env "read_timeout") →
      (Read env).readTimeout = 30 * goSecond) ∧
    (noParseDuration (env "write_timeout") →
      (Read env).writeTimeout = 30 * goSecond) ∧
    (noParseDuration (env "exec_timeout") → (Read env).execTimeout = 0) ∧
    (noParseDuration (env "healthcheck_interval") →
      (Read env).healthcheckInterval = (Read env).writeTimeout) ∧
    (noParseNonNegInt (env "port") → (Read env).port = 8080) ∧
    (Read env).metricsPort = 8081 ∧
    (env "write_debug" = "" → (Read env).writeDebug = false) ∧
    (env "cgi_headers" = "" → (Read env).cgiHeaders = true) ∧
    (env "marshal_request" = "" → (Read env).marshalRequest = false) ∧
    (env "debug_headers" = "" → (Read env).debugHeaders = false) ∧
    (env "suppress_lock" = "" → (Read env).suppressLock = false) ∧
    (env "combine_output" = "" → (Read env).combineOutput = true) ∧
    (noParseNonNegInt (env "max_inflight") → (Read env).maxInflight = 0) := by
  refine ⟨?_, ?_, ?_, ?_, ?_, rfl, ?_, ?_, ?_, ?_, ?_, ?_, ?_⟩
  · intro h
    exact parseIntOrDuration_fallback _ h.1 h.2
  · intro h
    exact parseIntOrDuration_fallback _ h.1 h.2
  · intro h
    exact parseIntOrDuration_fallback _ h.1 h.2
  · intro h
    exact parseIntOrDuration_fallback _ h.1 h.2
  · intro h
    exact parseIntValue_fallback _ h
  · intro h
    show (if isBoolValueSet (env "write_debug") then
        parseBoolValue (env "write_debug") else false) = false
    rw [h]
    rfl
  · intro h
    show (if isBoolValueSet (env "cgi_headers") then
        parseBoolValue (env "cgi_headers") else true) = true
    rw [h]
    rfl
  · intro h
    show parseBoolValue (env "marshal_request") = false
    rw [h]
    rfl
  · intro h
    show parseBoolValue (env "debug_headers") = false
    rw [h]
    rfl
  · intro h
    show parseBoolValue (env "suppress_lock") = false
    rw [h]
    rfl
  · intro h
    show (if isBoolValueSet (env "combine_output") then
        parseBoolValue (env "combine_output") else true) = true
    rw [h]
    rfl
  · intro h
    exact parseIntValue_fallback _ h

/-- Witness for claim C9: with every variable unset, the read timeout
and the combine-output flag take their defaults. -/
theorem claimC9_witness :
    (Read emptyEnv).readTimeout = 30 * goSecond ∧
    (Read emptyEnv).combineOutput = true := by
  obtain ⟨h1, _, _, _, _, _, _, _, _, _, _, h12, _⟩ := claimC9_defaults emptyEnv
  exact ⟨h1 noParseDuration_empty, h12 rfl⟩
